import Mathlib

/-!
Verification development for the `llm-as-a-judge` evaluator core.

This file gives a shallow embedding, in Lean 4, of the pure logic of the
repository's evaluation core (`src/criteria.py` and `src/evaluator.py`):

* the rubric data model (`Level`, `Criterion`, `Criteria`);
* prompt construction (`Evaluator.generate_prompt`);
* tolerant response parsing (`Evaluator.parse_llm_response`);
* confidence-weighted aggregation (the inline computation in
  `Evaluator._evaluate_sync` / `Evaluator.evaluate_document_async`);
* the mock evaluation path (`Evaluator._mock_evaluate`);
* batch input normalization (`Evaluator.evaluate_batch`) and the
  order-restoring sort of the concurrent batch path
  (`Evaluator._evaluate_batch_async`);
* JSON import/export of rubrics (`Criteria.to_json` / `Criteria.from_json`),
  modelled at the level of the JSON value tree produced by `json.loads` /
  consumed by `json.dumps`.

Python floats are modelled as rationals (`ℚ`), Python ints as `ℤ`, wall-clock
timestamps as an explicit `Nat` parameter, and the LLM backends as explicit
function arguments.  Fallible Python code (exceptions) is modelled with
`Except` / `Option`.
-/

set_option maxHeartbeats 1000000

/-! ### Data model (`src/evaluator.py` lines 13-25, `src/criteria.py` lines 5-17) -/

/-- `Level` from `src/criteria.py`: one `(score, rule)` pair of a criterion. -/
structure Level where
  score : Int
  rule : String
deriving DecidableEq, Repr

/-- `Criterion` from `src/criteria.py`: a named evaluation axis. -/
structure Criterion where
  name : String
  description : String
  levels : List Level
deriving DecidableEq, Repr

/-- `Criteria` from `src/criteria.py`: ordered collection of criteria
(the `criteria_list` alias is not modelled separately). -/
structure Criteria where
  criteria : List Criterion
deriving DecidableEq, Repr

/-- `CriterionScore` from `src/evaluator.py`. -/
structure CriterionScore where
  criterion_name : String
  score : Int
  reasoning : String
  confidence : ℚ
deriving DecidableEq, Repr

/-- `EvaluationResult` from `src/evaluator.py`; `datetime` timestamps are
modelled as an abstract `Nat` tick supplied by the caller (`datetime.now()`
becomes the explicit `now` argument of the evaluation functions). -/
structure EvaluationResult where
  document_id : Option String
  timestamp : Nat
  scores : List CriterionScore
  overall_score : ℚ
  model_used : Option String
deriving DecidableEq, Repr

/-! ### Python string primitives

The parser in `Evaluator.parse_llm_response` uses `str.strip`, `str.split`,
`str.replace`, substring tests, `int(...)` and `float(...)`.  They are
modelled here over `List Char` (the `data` of a `String`). -/

/-- ASCII whitespace recognised by Python `str.strip()` (the unicode
whitespace additionally stripped by Python does not occur in any input this
development reasons about). -/
def pyIsSpace (c : Char) : Bool :=
  c == ' ' || c == '\t' || c == '\n' || c == '\r' || c == '\x0b' || c == '\x0c'

/-- Python `str.strip()`. -/
def pyStrip (l : List Char) : List Char :=
  ((l.dropWhile pyIsSpace).reverse.dropWhile pyIsSpace).reverse

/-- Python `str.split(sep)` for a one-character separator: keeps empty
chunks, always returns at least one chunk. -/
def splitOnChar (sep : Char) : List Char → List (List Char)
  | [] => [[]]
  | c :: cs =>
    match splitOnChar sep cs with
    | [] => [[c]]
    | h :: t => if c == sep then [] :: h :: t else (c :: h) :: t

/-- Python `str.split(sep, 1)`: the text before the first separator, and
(when the separator occurs) the text after it. -/
def breakOn (sep : Char) : List Char → List Char × Option (List Char)
  | [] => ([], none)
  | c :: cs =>
    if c == sep then ([], some cs)
    else
      let p := breakOn sep cs
      (c :: p.1, p.2)

/-- Value of a nonempty ASCII digit string. -/
def digitsToNat (l : List Char) : Nat :=
  l.foldl (fun acc c => acc * 10 + (c.toNat - 48)) 0

/-- Python `int(s)` (as used on the stripped text after the last colon of a
score line): optional sign followed by ASCII digits.  Python additionally
accepts unicode digits, underscores between digits and unicode spaces; those
forms are not exercised by the code under verification.  `none` models the
raised `ValueError`. -/
def pyParseInt (l : List Char) : Option Int :=
  let t := pyStrip l
  match t with
  | '-' :: ds =>
    if !ds.isEmpty && ds.all Char.isDigit then some (-(digitsToNat ds : Int)) else none
  | '+' :: ds =>
    if !ds.isEmpty && ds.all Char.isDigit then some (digitsToNat ds : Int) else none
  | ds =>
    if !ds.isEmpty && ds.all Char.isDigit then some (digitsToNat ds : Int) else none

/-- Python `float(s)` for plain decimal literals: optional sign, digits, an
optional fractional part (at least one digit overall).  Exponent forms,
`inf` and `nan` are accepted by Python but never exercised here.  `none`
models the raised `ValueError`. -/
def pyParseFloat (l : List Char) : Option ℚ :=
  let t := pyStrip l
  let signed : ℚ × List Char :=
    match t with
    | '-' :: rest => (-1, rest)
    | '+' :: rest => (1, rest)
    | _ => (1, t)
  match splitOnChar '.' signed.2 with
  | [ip] =>
    if !ip.isEmpty && ip.all Char.isDigit then some (signed.1 * (digitsToNat ip : ℚ)) else none
  | [ip, fp] =>
    if (!ip.isEmpty || !fp.isEmpty) && ip.all Char.isDigit && fp.all Char.isDigit then
      some (signed.1 * ((digitsToNat ip : ℚ) + (digitsToNat fp : ℚ) / (10 ^ fp.length : ℚ)))
    else none
  | _ => none

/-! ### Response parsing (`Evaluator.parse_llm_response`, lines 124-157) -/

/-- `leadsWith needle hay`: `hay` starts with `needle`. -/
def leadsWith : List Char → List Char → Bool
  | [], _ => true
  | _ :: _, [] => false
  | a :: as, b :: bs => a == b && leadsWith as bs

/-- Python's substring test `needle in hay` for character sequences. -/
def containsSeq (needle : List Char) : List Char → Bool
  | [] => leadsWith needle []
  | c :: cs => leadsWith needle (c :: cs) || containsSeq needle cs

/-- `"スコア:" in line or "スコア：" in line` (line 133). -/
def scoreLabelIn (line : List Char) : Bool :=
  containsSeq "スコア:".data line || containsSeq "スコア：".data line

/-- `"理由:" in line or "理由：" in line` (line 140). -/
def reasonLabelIn (line : List Char) : Bool :=
  containsSeq "理由:".data line || containsSeq "理由：".data line

/-- `"確信度:" in line or "確信度：" in line` (line 144). -/
def confLabelIn (line : List Char) : Bool :=
  containsSeq "確信度:".data line || containsSeq "確信度：".data line

/-- `line.replace('：', ':')`: normalize fullwidth colons (lines 136/142/147). -/
def normColons (line : List Char) : List Char :=
  line.map (fun c => if c == '：' then ':' else c)

/-- `line.split(':')[-1]`: what follows the last colon (the whole line when
there is no colon). -/
def afterLastColon (line : List Char) : List Char :=
  (splitOnChar ':' line).getLastD []

/-- The mutable `score` / `reasoning` / `confidence` locals of
`parse_llm_response`, initialised at lines 128-130. -/
structure ParsedFields where
  score : Int
  reasoning : List Char
  confidence : ℚ
deriving DecidableEq, Repr

/-- One iteration of the `for line in lines` loop, lines 132-150.  The
`if / elif / elif` chain gives the score label priority over the reasoning
label, which has priority over the confidence label. -/
def parseLine (st : ParsedFields) (line : List Char) : ParsedFields :=
  if scoreLabelIn line then
    match pyParseInt (pyStrip (afterLastColon (normColons line))) with
    | some n => { st with score := n }
    | none => st
  else if reasonLabelIn line then
    { st with
      reasoning :=
        match breakOn ':' (normColons line) with
        | (_, some rest) => pyStrip rest
        | (_, none) => [] }
  else if confLabelIn line then
    match pyParseFloat (pyStrip (afterLastColon (normColons line))) with
    | some q => { st with confidence := q }
    | none => st
  else st

/-- `response.strip().split('\n')` (line 127). -/
def responseLines (response : String) : List (List Char) :=
  splitOnChar '\n' (pyStrip response.data)

/-- `Evaluator.parse_llm_response` (lines 124-157).  Total: every Python
exception in the body is caught (`try/except: pass`), so the function always
returns a `CriterionScore`. -/
def parse_llm_response (response : String) (criterion_name : String) : CriterionScore :=
  let st := (responseLines response).foldl parseLine ⟨3, [], 1/2⟩
  { criterion_name := criterion_name
    score := st.score
    reasoning := String.mk st.reasoning
    confidence := st.confidence }

/-! ### Prompt construction (`Evaluator.generate_prompt`, lines 98-122) -/

/-- Python `sorted(criterion.levels, key=lambda x: x.score, reverse=True)`
(line 107).  `sorted` is a stable sort; with `reverse=True` it orders by
score descending while preserving the original relative order of levels with
equal scores.  A stable sort's output is uniquely determined by that
contract, so the insertion sort below is an exact model. -/
def sortedLevelsDesc (levels : List Level) : List Level :=
  List.insertionSort (fun a b => b.score ≤ a.score) levels

/-- One line of the scoring-rule enumeration (line 108). -/
def levelBullet (lv : Level) : String :=
  "- スコア " ++ toString lv.score ++ ": " ++ lv.rule ++ "\n"

/-- The fixed preamble of the prompt (lines 100-106). -/
def promptHeader (criterion : Criterion) : String :=
  "あなたは文書評価の専門家です。以下の基準に従って文書を評価してください。\n\n評価基準: "
    ++ criterion.name ++ "\n説明: " ++ criterion.description
    ++ "\n\nスコアリングルール:\n"

/-- The fixed part of the prompt following the enumerated levels
(lines 110-121), with the document embedded between `---` markers. -/
def promptTail (document : String) : String :=
  "\n評価対象文書:\n---\n" ++ document
    ++ "\n---\n\n以下の形式で回答してください:\n1. スコア: [1-5の整数]\n2. 理由: [評価の根拠を具体的に説明]\n3. 確信度: [0.0-1.0の小数。評価の確実性]\n\n回答:"

/-- `Evaluator.generate_prompt` (lines 98-122): preamble, then the
`prompt += ...` loop over the descending-sorted levels, then the document
and answer template. -/
def generate_prompt (document : String) (criterion : Criterion) : String :=
  ((sortedLevelsDesc criterion.levels).foldl
      (fun acc lv => acc ++ levelBullet lv) (promptHeader criterion))
    ++ promptTail document

/-! ### Aggregation (`Evaluator._evaluate_sync` lines 213-216 and
`Evaluator.evaluate_document_async` lines 253-256) -/

/-- `total_confidence = sum(s.confidence for s in scores)` (line 215/255). -/
def sumConfidence (scores : List CriterionScore) : ℚ :=
  (scores.map (fun s => s.confidence)).sum

/-- `total_weighted_score = sum(s.score * s.confidence for s in scores)`
(line 214/254). -/
def sumWeighted (scores : List CriterionScore) : ℚ :=
  (scores.map (fun s => (s.score : ℚ) * s.confidence)).sum

/-- `overall_score = total_weighted_score / total_confidence if
total_confidence > 0 else 0` (line 216/256). -/
def overallScore (scores : List CriterionScore) : ℚ :=
  if sumConfidence scores > 0 then sumWeighted scores / sumConfidence scores else 0

/-! ### Evaluation paths (`Evaluator`, lines 159-287) -/

/-- The judge backend of `src/llm_providers.py`, reduced to the narrow
interface the evaluator uses: a blocking and a non-blocking text-for-text
call plus the configured model identifier
(`getattr(self.llm_provider.config, 'model_name', 'unknown')`). -/
structure LLMProviderM where
  generate_sync : String → String
  generate : String → String
  model_name : String

/-- `Evaluator._mock_evaluate` (lines 270-287): deterministic mock result,
one default `CriterionScore` per criterion, `overall_score` hardcoded to
`3.0`, `model_used = "mock"`. -/
def mock_evaluate (criteria : List Criterion) (document_id : Option String)
    (now : Nat) : EvaluationResult :=
  { document_id := document_id
    timestamp := now
    scores := criteria.map (fun c =>
      { criterion_name := c.name
        score := 3
        reasoning := "Mock evaluation result"
        confidence := 7/10 })
    overall_score := 3
    model_used := some "mock" }

/-- The per-criterion loop of the live path (lines 198-211 and, for the
async variant, lines 240-251): one prompt, one raw reply, one parse per
criterion, in rubric order. -/
def liveScores (criteria : List Criterion) (llm : String → String)
    (document : String) : List CriterionScore :=
  criteria.map (fun c => parse_llm_response (llm (generate_prompt document c)) c.name)

/-- The live branch of `_evaluate_sync` (lines 195-224): scores, weighted
aggregation, and `model_used` as assigned inside the loop (hence `None`
when the rubric is empty and the loop body never runs). -/
def liveResult (criteria : List Criterion) (llm : String → String)
    (document : String) (document_id : Option String) (now : Nat)
    (model_used : String) : EvaluationResult :=
  let scores := liveScores criteria llm document
  { document_id := document_id
    timestamp := now
    scores := scores
    overall_score := overallScore scores
    model_used := if criteria.isEmpty then none else some model_used }

/-- `Evaluator._evaluate_sync` (lines 187-229), on the `EvaluationResult`
branch (`return_dict=False`): mock path when neither an `llm_function` nor
an `llm_provider` is configured, otherwise the live path (the
`llm_function` takes precedence over the provider, line 201). -/
def evaluate_sync (criteria : List Criterion)
    (llm_function : Option (String → String)) (llm_provider : Option LLMProviderM)
    (document : String) (document_id : Option String) (now : Nat) : EvaluationResult :=
  match llm_function, llm_provider with
  | none, none => mock_evaluate criteria document_id now
  | some f, _ => liveResult criteria f document document_id now "custom_llm"
  | none, some p => liveResult criteria p.generate_sync document document_id now p.model_name

/-- `Evaluator.evaluate_document` (lines 159-185).  The async dispatch at
lines 171-185 routes every configuration that the claims below exercise
(in particular: no provider at all) to `_evaluate_sync`; the provider-backed
non-blocking variant is modelled separately as `evaluate_document_async`. -/
def evaluate_document (criteria : List Criterion)
    (llm_function : Option (String → String)) (llm_provider : Option LLMProviderM)
    (document : String) (document_id : Option String) (now : Nat) : EvaluationResult :=
  evaluate_sync criteria llm_function llm_provider document document_id now

/-- `Evaluator.evaluate_document_async` (lines 231-268) with a configured
provider: concurrent per-criterion calls whose replies are reassembled in
rubric order (`zip(prompts, responses)`), then the same aggregation. -/
def evaluate_document_async (criteria : List Criterion) (p : LLMProviderM)
    (document : String) (document_id : Option String) (now : Nat) : EvaluationResult :=
  let scores := liveScores criteria p.generate document
  { document_id := document_id
    timestamp := now
    scores := scores
    overall_score := overallScore scores
    model_used := some p.model_name }

/-! ### Batch evaluation (`Evaluator.evaluate_batch`, lines 289-403) -/

/-- The three accepted shapes of the `documents` argument
(`List[str] | Dict[str, str] | List[Tuple[str, str]]`); a Python dict is an
ordered association list (insertion order). -/
inductive DocsInput where
  | strs (docs : List String)
  | dmap (items : List (String × String))
  | pairs (items : List (String × String))

/-- The input normalization of `evaluate_batch` (lines 312-322): a dict
becomes its item list; a nonempty list of strings gets synthesized ids
`"doc_0", "doc_1", ...`; a nonempty list of pairs is taken as is; an empty
list (of either kind) falls through to `raise ValueError(...)`. -/
def normalizeDocs : DocsInput → Except String (List (String × String))
  | .dmap items => .ok items
  | .strs [] => .error "Documents must be a list, dict, or list of tuples"
  | .strs (d :: ds) =>
    .ok (((d :: ds).enum).map (fun p => ("doc_" ++ toString p.1, p.2)))
  | .pairs [] => .error "Documents must be a list, dict, or list of tuples"
  | .pairs (p :: ps) => .ok (p :: ps)

/-- `Evaluator.evaluate_batch` (lines 289-348) on the synchronous execution
path (`_evaluate_batch_sync`, lines 350-365): normalize, then evaluate each
`(id, content)` pair in order.  The CSV sink and progress bar are
observational side channels and are not modelled. -/
def evaluate_batch (criteria : List Criterion)
    (llm_function : Option (String → String)) (llm_provider : Option LLMProviderM)
    (docs : DocsInput) (now : Nat) : Except String (List EvaluationResult) :=
  (normalizeDocs docs).map (fun items =>
    items.map (fun it => evaluate_document criteria llm_function llm_provider it.2 (some it.1) now))

/-- `next((item for item in doc_items if item[0] == r.document_id), None)`
(line 398): the first `(id, content)` pair whose id equals the result's
document id. -/
def findById (i : String) : List (String × String) → Option (String × String)
  | [] => none
  | y :: ys => if y.1 == i then some y else findById i ys

/-- Python `doc_items.index(x)` (line 397): index of the first element equal
to `x`; `none` models the raised `ValueError`. -/
def pyListIndex (doc_items : List (String × String)) (x : String × String) : Option Nat :=
  match doc_items with
  | [] => none
  | y :: ys => if y == x then some 0 else (pyListIndex ys x).map (· + 1)

/-- The sort key of `results.sort(key=lambda r: ...)` (lines 397-399);
`none` models the exception raised when the key computation fails
(no matching item, or `document_id` is `None`). -/
def sortKeyAsync (doc_items : List (String × String)) (r : EvaluationResult) : Option Nat :=
  match r.document_id with
  | none => none
  | some i => (findById i doc_items).bind (pyListIndex doc_items)

/-- Total version of the key used once all keys are known to exist. -/
def keyOrDefault (doc_items : List (String × String)) (r : EvaluationResult) : Nat :=
  (sortKeyAsync doc_items r).getD 0

/-- The order-restoring step of `_evaluate_batch_async` with progress
reporting (lines 387-399): the results arrive in completion order
(`asyncio.as_completed`) and are re-sorted by `results.sort(key=...)`.
Python's `list.sort` is a stable sort; `List.insertionSort` with a
reflexive-total key comparison implements exactly the stable-sort contract.
`.error` models the `ValueError` Python raises while computing a key. -/
def reorderResults (doc_items : List (String × String))
    (completed : List EvaluationResult) : Except String (List EvaluationResult) :=
  if completed.all (fun r => (sortKeyAsync doc_items r).isSome) then
    .ok (List.insertionSort
      (fun a b => keyOrDefault doc_items a ≤ keyOrDefault doc_items b) completed)
  else .error "ValueError"

/-! ### Rubric JSON import/export (`src/criteria.py`, lines 41-77)

`Criteria.to_json` builds a nested dict/list structure and serializes it via
`json.dumps(..., ensure_ascii=False, indent=2)`; `Criteria.from_json` runs
`json.loads` and walks the resulting value tree.  The value tree is modelled
by `JVal`; `json.dumps` is modelled by `jdumpVal`; the tree-walking part of
`from_json` is modelled by `from_jsonData` (the textual `json.loads` parse,
a Python-stdlib inverse of `json.dumps` on these trees, is below the level
of this embedding). -/

/-- JSON values as produced by `json.loads` on rubric payloads. -/
inductive JVal where
  | jstr (s : String)
  | jint (n : Int)
  | jarr (xs : List JVal)
  | jobj (fields : List (String × JVal))

/-- Python `d.get(k)` / `d[k]` on a JSON object (dict insertion order;
duplicate keys cannot arise from `json.loads`, which keeps the last, nor
from `to_json`, whose keys are distinct). -/
def lookupField (fields : List (String × JVal)) (k : String) : Option JVal :=
  match fields with
  | [] => none
  | f :: fs => if f.1 == k then some f.2 else lookupField fs k

/-- The dict built for one level in `Criteria.to_json` (lines 47-53). -/
def levelToData (lv : Level) : JVal :=
  .jobj [("score", .jint lv.score), ("rule", .jstr lv.rule)]

/-- The dict built for one criterion in `Criteria.to_json` (lines 44-54). -/
def criterionToData (c : Criterion) : JVal :=
  .jobj [("name", .jstr c.name), ("description", .jstr c.description),
         ("levels", .jarr (c.levels.map levelToData))]

/-- The payload built by `Criteria.to_json` (lines 42-57) before
serialization. -/
def to_jsonData (r : Criteria) : JVal :=
  .jobj [("criteria", .jarr (r.criteria.map criterionToData))]

/-- A Python list comprehension over `Except`-valued element constructors:
stops at (raises) the first error, otherwise collects all values in order. -/
def mapExcept (f : α → Except String β) : List α → Except String (List β)
  | [] => .ok []
  | x :: xs => do
    let y ← f x
    let ys ← mapExcept f xs
    pure (y :: ys)

/-- `Level(score=level_data["score"], rule=level_data["rule"])`
(`from_json`, lines 66-69): a missing key raises `KeyError`; a value of the
wrong shape fails pydantic validation.  Both are modelled as `.error`. -/
def levelFromData : JVal → Except String Level
  | .jobj fs =>
    match lookupField fs "score" with
    | none => .error "KeyError: score"
    | some (.jint n) =>
      match lookupField fs "rule" with
      | none => .error "KeyError: rule"
      | some (.jstr s) => .ok { score := n, rule := s }
      | some _ => .error "ValidationError: rule"
    | some _ => .error "ValidationError: score"
  | _ => .error "TypeError: level entry is not an object"

/-- One iteration of the `for criterion_data in data.get("criteria", [])`
loop of `Criteria.from_json` (lines 65-75): the levels list is built first
(`criterion_data.get("levels", [])` defaults to the empty list), then
`criterion_data["name"]` is read (`KeyError` when absent), then
`criterion_data.get("description", "")` defaults to empty text. -/
def criterionFromData : JVal → Except String Criterion
  | .jobj fs =>
    (match lookupField fs "levels" with
      | none => mapExcept levelFromData []
      | some (.jarr xs) => mapExcept levelFromData xs
      | some _ =>
        (.error "TypeError: levels is not iterable" : Except String (List Level))).bind
      (fun levels =>
        match lookupField fs "name" with
        | none => .error "KeyError: name"
        | some (.jstr nm) =>
          (match lookupField fs "description" with
            | none => (.ok "" : Except String String)
            | some (.jstr d) => .ok d
            | some _ => .error "ValidationError: description").bind
            (fun desc => .ok { name := nm, description := desc, levels := levels })
        | some _ => .error "ValidationError: name")
  | _ => .error "TypeError: criterion entry is not an object"

/-- `Criteria.from_json` (lines 60-77) applied to an already-parsed JSON
value tree: `data.get("criteria", [])` defaults to no criteria, then each
entry is converted in order. -/
def from_jsonData : JVal → Except String Criteria
  | .jobj fs =>
    (match lookupField fs "criteria" with
      | none => mapExcept criterionFromData []
      | some (.jarr xs) => mapExcept criterionFromData xs
      | some _ =>
        (.error "TypeError: criteria is not iterable" :
          Except String (List Criterion))).map Criteria.mk
  | _ => .error "AttributeError: payload is not an object"

/-- One hexadecimal digit, lower case. -/
def hexDigit (n : Nat) : Char :=
  if n < 10 then Char.ofNat (48 + n) else Char.ofNat (87 + n)

/-- String escaping of `json.dumps` with `ensure_ascii=False`: only the
quote, the backslash and control characters are escaped; non-ASCII text is
emitted verbatim. -/
def escapeChar (c : Char) : String :=
  if c == '"' then "\\\""
  else if c == '\\' then "\\\\"
  else if c == '\n' then "\\n"
  else if c == '\r' then "\\r"
  else if c == '\t' then "\\t"
  else if c.toNat < 32 then
    "\\u00" ++ String.mk [hexDigit (c.toNat / 16), hexDigit (c.toNat % 16)]
  else String.singleton c

/-- A JSON string literal as printed by `json.dumps(..., ensure_ascii=False)`. -/
def jstrLit (s : String) : String :=
  "\"" ++ String.join (s.data.map escapeChar) ++ "\""

/-- `n` spaces of indentation. -/
def pad (n : Nat) : String :=
  String.mk (List.replicate n ' ')

mutual

/-- `json.dumps(v, ensure_ascii=False, indent=2)` at nesting depth
`ind` spaces: pretty-printed objects and arrays with two-space indent,
`": "` key separators and `",\n"` item separators. -/
def jdumpVal : Nat → JVal → String
  | _, .jstr s => jstrLit s
  | _, .jint n => toString n
  | _, .jarr [] => "[]"
  | ind, .jarr (x :: xs) =>
    "[\n" ++ String.intercalate ",\n" (jdumpItems (ind + 2) (x :: xs))
      ++ "\n" ++ pad ind ++ "]"
  | _, .jobj [] => "\x7b\x7d"
  | ind, .jobj (f :: fs) =>
    "\x7b\n" ++ String.intercalate ",\n" (jdumpFields (ind + 2) (f :: fs))
      ++ "\n" ++ pad ind ++ "\x7d"

/-- Array items, each on its own indented line. -/
def jdumpItems : Nat → List JVal → List String
  | _, [] => []
  | ind, x :: xs => (pad ind ++ jdumpVal ind x) :: jdumpItems ind xs

/-- Object fields, each on its own indented line. -/
def jdumpFields : Nat → List (String × JVal) → List String
  | _, [] => []
  | ind, f :: fs =>
    (pad ind ++ jstrLit f.1 ++ ": " ++ jdumpVal ind f.2) :: jdumpFields ind fs

end

/-- `Criteria.to_json` (lines 41-58): build the payload, serialize it. -/
def to_json (r : Criteria) : String :=
  jdumpVal 0 (to_jsonData r)

/-- String concatenation of the images of a list, used to describe the
`prompt += ...` loop of `generate_prompt`. -/
def concatMapStr (f : α → String) : List α → String
  | [] => ""
  | x :: xs => f x ++ concatMapStr f xs

/-- The aggregation formula exactly as the specification words it
(&#167;4.4): `Σ(score·confidence) / Σ(confidence)`, and `0` when
`Σ(confidence) == 0`.  This definition follows the spec's words (not the
code) and exists to be compared against `overallScore`. -/
def specAggregate (scores : List CriterionScore) : ℚ :=
  if sumConfidence scores = 0 then 0 else sumWeighted scores / sumConfidence scores

/-! ### Claim C2 and C10: the response parser -/

/-- A line on which the loop body overwrites `score`: the score label is
present and the text after the last colon parses as an integer. -/
def setsScore (line : List Char) : Bool :=
  scoreLabelIn line && (pyParseInt (pyStrip (afterLastColon (normColons line)))).isSome

/-- A line on which the loop body overwrites `reasoning`: no score label,
but the reasoning label is present. -/
def setsReasoning (line : List Char) : Bool :=
  !scoreLabelIn line && reasonLabelIn line

/-- A line on which the loop body overwrites `confidence`: no score or
reasoning label, the confidence label is present and the text after the
last colon parses as a float. -/
def setsConfidence (line : List Char) : Bool :=
  !scoreLabelIn line && !reasonLabelIn line && confLabelIn line &&
    (pyParseFloat (pyStrip (afterLastColon (normColons line)))).isSome

theorem parseLine_score_of_not_sets {st : ParsedFields} {line : List Char}
    (h : setsScore line = false) : (parseLine st line).score = st.score := by
  unfold setsScore at h
  unfold parseLine
  by_cases hs : scoreLabelIn line
  · rw [hs] at h
    simp only [Bool.true_and] at h
    simp only [hs, if_true]
    cases hpi : pyParseInt (pyStrip (afterLastColon (normColons line))) with
    | none => rfl
    | some n => rw [hpi] at h; simp at h
  · simp only [Bool.not_eq_true] at hs
    simp only [hs, Bool.false_eq_true, if_false]
    by_cases hr : reasonLabelIn line
    · simp only [hr, if_true]
    · simp only [Bool.not_eq_true] at hr
      simp only [hr, Bool.false_eq_true, if_false]
      by_cases hc : confLabelIn line
      · simp only [hc, if_true]
        cases pyParseFloat (pyStrip (afterLastColon (normColons line))) with
        | none => rfl
        | some q => rfl
      · simp only [Bool.not_eq_true] at hc
        simp only [hc, Bool.false_eq_true, if_false]

theorem parseLine_reasoning_of_not_sets {st : ParsedFields} {line : List Char}
    (h : setsReasoning line = false) : (parseLine st line).reasoning = st.reasoning := by
  unfold setsReasoning at h
  unfold parseLine
  by_cases hs : scoreLabelIn line
  · simp only [hs, if_true]
    cases pyParseInt (pyStrip (afterLastColon (normColons line))) with
    | none => rfl
    | some n => rfl
  · simp only [Bool.not_eq_true] at hs
    rw [hs] at h
    simp only [Bool.not_false, Bool.true_and] at h
    simp only [hs, Bool.false_eq_true, if_false, h]
    by_cases hc : confLabelIn line
    · simp only [hc, if_true]
      cases pyParseFloat (pyStrip (afterLastColon (normColons line))) with
      | none => rfl
      | some q => rfl
    · simp only [Bool.not_eq_true] at hc
      simp only [hc, Bool.false_eq_true, if_false]

theorem parseLine_confidence_of_not_sets {st : ParsedFields} {line : List Char}
    (h : setsConfidence line = false) : (parseLine st line).confidence = st.confidence := by
  unfold setsConfidence at h
  unfold parseLine
  by_cases hs : scoreLabelIn line
  · simp only [hs, if_true]
    cases pyParseInt (pyStrip (afterLastColon (normColons line))) with
    | none => rfl
    | some n => rfl
  · simp only [Bool.not_eq_true] at hs
    simp only [hs, Bool.false_eq_true, if_false]
    by_cases hr : reasonLabelIn line
    · simp only [hr, if_true]
    · simp only [Bool.not_eq_true] at hr
      simp only [hr, Bool.false_eq_true, if_false]
      by_cases hc : confLabelIn line
      · rw [hs, hr, hc] at h
        simp only [Bool.not_false, Bool.true_and] at h
        simp only [hc, if_true]
        cases hpf : pyParseFloat (pyStrip (afterLastColon (normColons line))) with
        | none => rfl
        | some q => rw [hpf] at h; simp at h
      · simp only [Bool.not_eq_true] at hc
        simp only [hc, Bool.false_eq_true, if_false]

theorem foldl_parseLine_score (lines : List (List Char)) (st : ParsedFields)
    (h : ∀ l ∈ lines, setsScore l = false) :
    (lines.foldl parseLine st).score = st.score := by
  induction lines generalizing st with
  | nil => rfl
  | cons x xs ih =>
    rw [List.foldl_cons, ih _ (fun l hl => h l (List.mem_cons_of_mem x hl))]
    exact parseLine_score_of_not_sets (h x (List.mem_cons_self x xs))

theorem foldl_parseLine_reasoning (lines : List (List Char)) (st : ParsedFields)
    (h : ∀ l ∈ lines, setsReasoning l = false) :
    (lines.foldl parseLine st).reasoning = st.reasoning := by
  induction lines generalizing st with
  | nil => rfl
  | cons x xs ih =>
    rw [List.foldl_cons, ih _ (fun l hl => h l (List.mem_cons_of_mem x hl))]
    exact parseLine_reasoning_of_not_sets (h x (List.mem_cons_self x xs))

theorem foldl_parseLine_confidence (lines : List (List Char)) (st : ParsedFields)
    (h : ∀ l ∈ lines, setsConfidence l = false) :
    (lines.foldl parseLine st).confidence = st.confidence := by
  induction lines generalizing st with
  | nil => rfl
  | cons x xs ih =>
    rw [List.foldl_cons, ih _ (fun l hl => h l (List.mem_cons_of_mem x hl))]
    exact parseLine_confidence_of_not_sets (h x (List.mem_cons_self x xs))

/-- C2: for every response text and criterion name, `parse_llm_response`
never raises (it is a total function into `CriterionScore`) and returns the
given criterion name; each field for which no line of the response
successfully extracts a value independently keeps its default:
`score = 3`, `reasoning = ""`, `confidence = 0.5`. -/
theorem parse_llm_response_defaults (response name : String) :
    (parse_llm_response response name).criterion_name = name
  ∧ ((∀ l ∈ responseLines response, setsScore l = false) →
      (parse_llm_response response name).score = 3)
  ∧ ((∀ l ∈ responseLines response, setsReasoning l = false) →
      (parse_llm_response response name).reasoning = "")
  ∧ ((∀ l ∈ responseLines response, setsConfidence l = false) →
      (parse_llm_response response name).confidence = 1/2) := by
  refine ⟨rfl, fun h => ?_, fun h => ?_, fun h => ?_⟩
  · exact foldl_parseLine_score _ _ h
  · show String.mk ((responseLines response).foldl parseLine ⟨3, [], 1/2⟩).reasoning = ""
    rw [foldl_parseLine_reasoning _ _ h]
  · exact foldl_parseLine_confidence _ _ h

/-- Witness for C2 on a reply containing none of the three labels. -/
theorem parse_llm_response_defaults_witness :
    (parse_llm_response "judge reply with no labels" "clarity").score = 3
  ∧ (parse_llm_response "judge reply with no labels" "clarity").reasoning = ""
  ∧ (parse_llm_response "judge reply with no labels" "clarity").confidence = 1/2 := by
  have h := parse_llm_response_defaults "judge reply with no labels" "clarity"
  exact ⟨h.2.1 (by decide), h.2.2.1 (by decide), h.2.2.2 (by decide)⟩

/-- C10: every input line updates at most one field, with fixed priority
score, then reasoning, then confidence: a line carrying the score label
leaves `reasoning` and `confidence` untouched (whatever other labels it
carries), and a line without a score label but with the reasoning label
leaves `score` and `confidence` untouched. -/
theorem parseLine_priority (st : ParsedFields) (line : List Char) :
    (scoreLabelIn line = true →
      (parseLine st line).reasoning = st.reasoning
        ∧ (parseLine st line).confidence = st.confidence)
  ∧ (scoreLabelIn line = false → reasonLabelIn line = true →
      (parseLine st line).score = st.score
        ∧ (parseLine st line).confidence = st.confidence) := by
  constructor
  · intro hs
    unfold parseLine
    simp only [hs, if_true]
    cases pyParseInt (pyStrip (afterLastColon (normColons line))) with
    | none => exact ⟨rfl, rfl⟩
    | some n => exact ⟨rfl, rfl⟩
  · intro hs hr
    unfold parseLine
    rw [hs, hr]
    exact ⟨rfl, rfl⟩

/-- Witness for C10: a line carrying both the score and the confidence
label only touches the score field. -/
theorem parseLine_priority_witness :
    (parseLine ⟨3, [], 1/2⟩ "スコア: 4 確信度: 0.9".data).reasoning = []
  ∧ (parseLine ⟨3, [], 1/2⟩ "スコア: 4 確信度: 0.9".data).confidence = 1/2 :=
  (parseLine_priority ⟨3, [], 1/2⟩ "スコア: 4 確信度: 0.9".data).1 (by decide)

/-! ### Claim C5: the mock path -/

/-- C5: with neither an `llm_function` nor an `llm_provider` configured,
`evaluate_document` takes the mock path: one `CriterionScore` with
`score = 3`, `confidence = 0.7`, `reasoning = "Mock evaluation result"` per
criterion, in rubric order, with `model_used = "mock"`; two runs on the same
rubric and document (at possibly different timestamps) yield identical
scores, confidences and `model_used`. -/
theorem mock_path_deterministic (criteria : List Criterion) (document : String)
    (docId : Option String) (now now2 : Nat) :
    (evaluate_document criteria none none document docId now).scores
        = criteria.map (fun c =>
            { criterion_name := c.name, score := 3,
              reasoning := "Mock evaluation result", confidence := 7/10 })
  ∧ (evaluate_document criteria none none document docId now).model_used = some "mock"
  ∧ (evaluate_document criteria none none document docId now2).scores
      = (evaluate_document criteria none none document docId now).scores
  ∧ (evaluate_document criteria none none document docId now2).model_used
      = (evaluate_document criteria none none document docId now).model_used :=
  ⟨rfl, rfl, rfl, rfl⟩

/-! ### Claim C9: empty batch inputs -/

/-- C9: `evaluate_batch` raises a `ValueError` on an empty list of
documents (both the bare-strings and the pairs form), while an empty
mapping of id to content is accepted and yields an empty result list. -/
theorem evaluate_batch_empty_inputs (criteria : List Criterion) (now : Nat) :
    evaluate_batch criteria none none (.strs []) now
        = .error "Documents must be a list, dict, or list of tuples"
  ∧ evaluate_batch criteria none none (.pairs []) now
        = .error "Documents must be a list, dict, or list of tuples"
  ∧ evaluate_batch criteria none none (.dmap []) now = .ok [] :=
  ⟨rfl, rfl, rfl⟩

/-! ### Claims C1 and C3: confidence-weighted aggregation -/

theorem sum_map_const_q {α : Type} (l : List α) (q : ℚ) :
    (l.map (fun _ => q)).sum = (l.length : ℚ) * q := by
  induction l with
  | nil => simp
  | cons x xs ih =>
    simp only [List.map_cons, List.sum_cons, ih, List.length_cons]
    push_cast
    ring

theorem sumConfidence_eq_zero {scores : List CriterionScore}
    (h : ∀ s ∈ scores, s.confidence = 0) : sumConfidence scores = 0 := by
  unfold sumConfidence
  apply List.sum_eq_zero
  intro x hx
  obtain ⟨s, hs, rfl⟩ := List.mem_map.1 hx
  exact h s hs

/-- The three-way case analysis of the aggregation expression at
line 216 / line 256 of `src/evaluator.py`. -/
theorem overallScore_spec (scores : List CriterionScore) :
    (sumConfidence scores > 0 →
      overallScore scores = sumWeighted scores / sumConfidence scores)
  ∧ (sumConfidence scores ≤ 0 → overallScore scores = 0)
  ∧ ((∀ s ∈ scores, s.confidence = 0) → overallScore scores = 0) := by
  refine ⟨fun h => ?_, fun h => ?_, fun h => ?_⟩
  · unfold overallScore
    rw [if_pos h]
  · unfold overallScore
    rw [if_neg (not_lt.mpr h)]
  · unfold overallScore
    rw [if_neg (not_lt.mpr (le_of_eq (sumConfidence_eq_zero h)))]

/-- C1 (amended): for the sequence of `(score, confidence)` pairs produced
by the live evaluation path, the computed `overall_score` equals
`Σ(score·confidence) / Σ(confidence)` whenever `Σ(confidence) > 0`, and
equals `0` whenever `Σ(confidence) ≤ 0` — in particular when all
confidences are `0`. -/
theorem live_overall_weighted_average (criteria : List Criterion)
    (f : String → String) (document : String) (docId : Option String) (now : Nat) :
    (sumConfidence (evaluate_sync criteria (some f) none document docId now).scores > 0 →
      (evaluate_sync criteria (some f) none document docId now).overall_score
        = sumWeighted (evaluate_sync criteria (some f) none document docId now).scores
          / sumConfidence (evaluate_sync criteria (some f) none document docId now).scores)
  ∧ (sumConfidence (evaluate_sync criteria (some f) none document docId now).scores ≤ 0 →
      (evaluate_sync criteria (some f) none document docId now).overall_score = 0)
  ∧ ((∀ s ∈ (evaluate_sync criteria (some f) none document docId now).scores,
        s.confidence = 0) →
      (evaluate_sync criteria (some f) none document docId now).overall_score = 0) := by
  have hs : (evaluate_sync criteria (some f) none document docId now).scores
      = liveScores criteria f document := rfl
  have ho : (evaluate_sync criteria (some f) none document docId now).overall_score
      = overallScore (liveScores criteria f document) := rfl
  rw [hs, ho]
  exact overallScore_spec (liveScores criteria f document)

/-- Witness for C1 (amended): a one-criterion live evaluation whose reply
parses with confidence `0.5 > 0`. -/
theorem live_overall_weighted_average_witness :
    (evaluate_sync [⟨"c", "d", []⟩]
        (some (fun _ => "スコア: 4\n確信度: 0.5")) none "doc" none 0).overall_score
      = sumWeighted (evaluate_sync [⟨"c", "d", []⟩]
            (some (fun _ => "スコア: 4\n確信度: 0.5")) none "doc" none 0).scores
        / sumConfidence (evaluate_sync [⟨"c", "d", []⟩]
            (some (fun _ => "スコア: 4\n確信度: 0.5")) none "doc" none 0).scores :=
  (live_overall_weighted_average [⟨"c", "d", []⟩]
    (fun _ => "スコア: 4\n確信度: 0.5") "doc" none 0).1 (by
      simp +decide [evaluate_sync, liveResult, liveScores, sumConfidence,
        parse_llm_response, responseLines, pyStrip, splitOnChar, parseLine,
        scoreLabelIn, reasonLabelIn, confLabelIn, containsSeq, leadsWith, normColons,
        afterLastColon, pyParseFloat, pyParseInt, digitsToNat, pyIsSpace, breakOn])

/-- C1 counterexample: a reply parsed with confidence `-1.0` passes through
the live evaluation path; the code computes `overall_score = 0` (the guard
is `total_confidence > 0`, not `!= 0`), while the claimed formula
`Σ(score·confidence)/Σ(confidence) = (3·(-1))/(-1) = 3`. -/
theorem live_overall_negative_confidence_counterexample :
    (evaluate_sync [⟨"c", "d", []⟩]
        (some (fun _ => "スコア: 3\n確信度: -1.0")) none "doc" none 0).overall_score = 0
  ∧ sumWeighted (evaluate_sync [⟨"c", "d", []⟩]
        (some (fun _ => "スコア: 3\n確信度: -1.0")) none "doc" none 0).scores
      / sumConfidence (evaluate_sync [⟨"c", "d", []⟩]
            (some (fun _ => "スコア: 3\n確信度: -1.0")) none "doc" none 0).scores = 3
  ∧ ((0 : ℚ) ≠ 3) := by
  refine ⟨?_, ?_, by norm_num⟩ <;>
    simp +decide [evaluate_sync, liveResult, liveScores, overallScore,
      sumConfidence, sumWeighted,
      parse_llm_response, responseLines, pyStrip, splitOnChar, parseLine,
      scoreLabelIn, reasonLabelIn, confLabelIn, containsSeq, leadsWith, normColons,
      afterLastColon, pyParseFloat, pyParseInt, digitsToNat, pyIsSpace, breakOn]

/-- C3 counterexample: on the mock path with an empty rubric the stored
`overall_score` is the hardcoded `3.0`, while the aggregation formula
applied to the (empty) `scores` sequence yields `0`. -/
theorem mock_empty_rubric_overall_diverges :
    (mock_evaluate [] none 0).overall_score = 3
  ∧ specAggregate (mock_evaluate [] none 0).scores = 0
  ∧ (mock_evaluate [] none 0).overall_score
      ≠ specAggregate (mock_evaluate [] none 0).scores := by
  refine ⟨rfl, ?_, ?_⟩ <;>
    simp +decide [specAggregate, mock_evaluate, sumConfidence, sumWeighted]

/-- C3 (amended): `overall_score` equals the aggregator (`overallScore`,
the code's `Σ(score·confidence)/Σ(confidence) if Σ(confidence) > 0 else 0`)
applied to the result's own `scores` on every live path (sync with a custom
function, sync with a provider, async with a provider, over any rubric) and
on the mock path for a non-empty rubric; on the mock path with an empty
rubric the stored value `3.0` diverges from the formula value `0`
(see the counterexample). -/
theorem overall_score_derivable (criteria : List Criterion) (f : String → String)
    (p : LLMProviderM) (document : String) (docId : Option String) (now : Nat) :
    (evaluate_sync criteria (some f) none document docId now).overall_score
        = overallScore (evaluate_sync criteria (some f) none document docId now).scores
  ∧ (evaluate_sync criteria none (some p) document docId now).overall_score
        = overallScore (evaluate_sync criteria none (some p) document docId now).scores
  ∧ (evaluate_document_async criteria p document docId now).overall_score
        = overallScore (evaluate_document_async criteria p document docId now).scores
  ∧ (criteria ≠ [] →
      (mock_evaluate criteria docId now).overall_score
        = overallScore (mock_evaluate criteria docId now).scores) := by
  refine ⟨rfl, rfl, rfl, fun hne => ?_⟩
  have hlen : (0 : ℚ) < (criteria.length : ℚ) := by
    have h0 : 0 < criteria.length := List.length_pos.mpr hne
    exact_mod_cast h0
  have hconf : sumConfidence (mock_evaluate criteria docId now).scores
      = (criteria.length : ℚ) * (7/10) := by
    show ((criteria.map (fun c =>
        ({ criterion_name := c.name, score := 3,
           reasoning := "Mock evaluation result",
           confidence := 7/10 } : CriterionScore))).map (fun s => s.confidence)).sum
      = (criteria.length : ℚ) * (7/10)
    rw [List.map_map]
    exact sum_map_const_q criteria (7/10)
  have hw : sumWeighted (mock_evaluate criteria docId now).scores
      = (criteria.length : ℚ) * (((3 : Int) : ℚ) * (7/10)) := by
    show ((criteria.map (fun c =>
        ({ criterion_name := c.name, score := 3,
           reasoning := "Mock evaluation result",
           confidence := 7/10 } : CriterionScore))).map
          (fun s => (s.score : ℚ) * s.confidence)).sum
      = (criteria.length : ℚ) * (((3 : Int) : ℚ) * (7/10))
    rw [List.map_map]
    exact sum_map_const_q criteria (((3 : Int) : ℚ) * (7/10))
  have hpos : sumConfidence (mock_evaluate criteria docId now).scores > 0 := by
    rw [hconf]; positivity
  have : overallScore (mock_evaluate criteria docId now).scores = 3 := by
    unfold overallScore
    rw [if_pos hpos, hconf, hw,
      mul_div_mul_left (((3 : Int) : ℚ) * (7/10)) ((7:ℚ)/10) (ne_of_gt hlen)]
    norm_num
  rw [this]
  rfl

/-- Witness for C3 (amended): the mock path over a one-criterion rubric. -/
theorem overall_score_derivable_witness :
    (mock_evaluate [⟨"c", "d", []⟩] none 0).overall_score
      = overallScore (mock_evaluate [⟨"c", "d", []⟩] none 0).scores :=
  (overall_score_derivable [⟨"c", "d", []⟩] (fun _ => "")
    ⟨fun _ => "", fun _ => "", "m"⟩ "doc" none 0).2.2.2 (by decide)

/-! ### Claim C7: prompt construction -/

theorem foldl_append_concatMapStr {α : Type} (f : α → String) (l : List α) (base : String) :
    l.foldl (fun acc x => acc ++ f x) base = base ++ concatMapStr f l := by
  induction l generalizing base with
  | nil => simp [concatMapStr]
  | cons x xs ih =>
    rw [List.foldl_cons, ih, concatMapStr]
    exact String.append_assoc base (f x) (concatMapStr f xs)

theorem generate_prompt_foldl (document : String) (criterion : Criterion) :
    generate_prompt document criterion
      = promptHeader criterion
        ++ concatMapStr levelBullet (sortedLevelsDesc criterion.levels)
        ++ promptTail document := by
  unfold generate_prompt
  rw [foldl_append_concatMapStr]

/-- The descending insertion used by `sortedLevelsDesc` is stable: filtering
the inserted list at any fixed score value either exposes the new element in
front (when it has that score) or leaves the filtered list unchanged. -/
theorem filter_orderedInsert_score (x : Level) (l : List Level) (s : Int) :
    (List.orderedInsert (fun a b => b.score ≤ a.score) x l).filter
        (fun lv => lv.score == s)
      = if x.score == s then
          x :: l.filter (fun lv => lv.score == s)
        else l.filter (fun lv => lv.score == s) := by
  induction l with
  | nil =>
    by_cases hx : x.score == s <;> simp [List.orderedInsert, List.filter, hx]
  | cons y ys ih =>
    by_cases hr : y.score ≤ x.score
    · simp only [List.orderedInsert, if_pos hr]
      by_cases hx : x.score == s <;> simp [List.filter, hx]
    · simp only [List.orderedInsert, if_neg hr]
      by_cases hy : y.score == s
      · have hys : y.score = s := beq_iff_eq.mp hy
        have hx : (x.score == s) = false := by
          apply beq_eq_false_iff_ne.mpr
          intro hxs
          exact hr (by rw [hys, hxs])
        simp [List.filter_cons, hy, ih, hx]
      · by_cases hx : x.score == s <;> simp [List.filter_cons, hy, ih, hx]

/-- Stability of the level sort: levels of equal score keep their original
relative order. -/
theorem sortedLevelsDesc_stable (levels : List Level) (s : Int) :
    (sortedLevelsDesc levels).filter (fun lv => lv.score == s)
      = levels.filter (fun lv => lv.score == s) := by
  induction levels with
  | nil => rfl
  | cons x xs ih =>
    have hstep : sortedLevelsDesc (x :: xs)
        = List.orderedInsert (fun a b => b.score ≤ a.score) x (sortedLevelsDesc xs) := rfl
    rw [hstep, filter_orderedInsert_score]
    by_cases hx : x.score == s <;> simp [hx, List.filter_cons, ih]

/-- C7: `generate_prompt` is a pure, deterministic function of
`(document, criterion)`; the output decomposes into the fixed header, one
bullet per level enumerated in decreasing-score order (stable for equal
scores: the sorted enumeration is a permutation of the rubric's levels,
pairwise nonincreasing in score, and filters at any fixed score exactly as
the original list), and the verbatim document between the `---` delimiter
markers. -/
theorem generate_prompt_correct (document : String) (criterion : Criterion) :
    (∀ d₂ c₂, d₂ = document → c₂ = criterion →
        generate_prompt d₂ c₂ = generate_prompt document criterion)
  ∧ (∃ pre post, generate_prompt document criterion
        = pre ++ "---\n" ++ document ++ "\n---" ++ post)
  ∧ generate_prompt document criterion
      = promptHeader criterion
        ++ concatMapStr levelBullet (sortedLevelsDesc criterion.levels)
        ++ promptTail document
  ∧ (sortedLevelsDesc criterion.levels).Perm criterion.levels
  ∧ List.Pairwise (fun a b => b.score ≤ a.score) (sortedLevelsDesc criterion.levels)
  ∧ (∀ s : Int, (sortedLevelsDesc criterion.levels).filter (fun lv => lv.score == s)
      = criterion.levels.filter (fun lv => lv.score == s)) := by
  haveI ht : IsTotal Level (fun a b => b.score ≤ a.score) :=
    ⟨fun a b => le_total b.score a.score⟩
  haveI htr : IsTrans Level (fun a b => b.score ≤ a.score) :=
    ⟨fun a b c hab hbc => le_trans hbc hab⟩
  refine ⟨fun d₂ c₂ hd hc => by rw [hd, hc], ?_, generate_prompt_foldl document criterion,
    List.perm_insertionSort _ _, List.sorted_insertionSort _ _,
    sortedLevelsDesc_stable criterion.levels⟩
  refine ⟨promptHeader criterion
      ++ concatMapStr levelBullet (sortedLevelsDesc criterion.levels)
      ++ "\n評価対象文書:\n",
    "\n\n以下の形式で回答してください:\n1. スコア: [1-5の整数]\n2. 理由: [評価の根拠を具体的に説明]\n3. 確信度: [0.0-1.0の小数。評価の確実性]\n\n回答:", ?_⟩
  rw [generate_prompt_foldl document criterion]
  unfold promptTail
  have h1 : ("\n評価対象文書:\n" : String) ++ "---\n" = "\n評価対象文書:\n---\n" := by decide
  have h2 : ("\n---" : String)
        ++ "\n\n以下の形式で回答してください:\n1. スコア: [1-5の整数]\n2. 理由: [評価の根拠を具体的に説明]\n3. 確信度: [0.0-1.0の小数。評価の確実性]\n\n回答:"
      = "\n---\n\n以下の形式で回答してください:\n1. スコア: [1-5の整数]\n2. 理由: [評価の根拠を具体的に説明]\n3. 確信度: [0.0-1.0の小数。評価の確実性]\n\n回答:" := by decide
  simp only [String.append_assoc]
  rw [← String.append_assoc "\n評価対象文書:\n" "---\n", h1, ← h2]

/-- Witness for C7: the determinism component applied at a concrete
document and criterion. -/
theorem generate_prompt_correct_witness :
    generate_prompt "DOC" ⟨"c", "d", [⟨1, "bad"⟩, ⟨5, "good"⟩]⟩
      = generate_prompt "DOC" ⟨"c", "d", [⟨1, "bad"⟩, ⟨5, "good"⟩]⟩ :=
  (generate_prompt_correct "DOC" ⟨"c", "d", [⟨1, "bad"⟩, ⟨5, "good"⟩]⟩).1
    "DOC" ⟨"c", "d", [⟨1, "bad"⟩, ⟨5, "good"⟩]⟩ rfl rfl

/-! ### Claims C4 and C8: rubric JSON import/export -/

theorem levelFromData_toData (lv : Level) : levelFromData (levelToData lv) = .ok lv := by
  simp [levelToData, levelFromData, lookupField]

theorem mapExcept_roundtrip {α β : Type} (f : β → Except String α) (g : α → β)
    (l : List α) (h : ∀ x ∈ l, f (g x) = .ok x) :
    mapExcept f (l.map g) = .ok l := by
  induction l with
  | nil => rfl
  | cons x xs ih =>
    have hx := h x (List.mem_cons_self x xs)
    have hxs := ih (fun y hy => h y (List.mem_cons_of_mem x hy))
    show mapExcept f (g x :: xs.map g) = .ok (x :: xs)
    unfold mapExcept
    rw [hx, hxs]
    rfl

theorem criterionFromData_toData (c : Criterion) :
    criterionFromData (criterionToData c) = .ok c := by
  have hlv : mapExcept levelFromData (c.levels.map levelToData) = .ok c.levels :=
    mapExcept_roundtrip levelFromData levelToData c.levels
      (fun lv _ => levelFromData_toData lv)
  simp [criterionToData, criterionFromData, lookupField, hlv]
  rfl

/-- C8: exporting a rubric to structured text, reconstructing a rubric from
it and exporting again yields byte-identical structured text.  The
reconstruction is modelled on the JSON value tree (`json.loads` of the
export is the export's tree); it recovers the rubric exactly, hence the
serialized text `to_json` is byte-identical. -/
theorem rubric_roundtrip (r : Criteria) :
    from_jsonData (to_jsonData r) = .ok r
  ∧ (from_jsonData (to_jsonData r)).map to_json = .ok (to_json r) := by
  have h1 : from_jsonData (to_jsonData r) = .ok r := by
    have hcs : mapExcept criterionFromData (r.criteria.map criterionToData)
        = .ok r.criteria :=
      mapExcept_roundtrip criterionFromData criterionToData r.criteria
        (fun c _ => criterionFromData_toData c)
    simp [to_jsonData, from_jsonData, lookupField, hcs]
    rfl
  exact ⟨h1, by rw [h1]; rfl⟩

/-- C4 counterexample: a criterion entry that lacks the `levels` field is
accepted (`criterion_data.get("levels", [])` defaults to the empty list)
instead of failing, contradicting the claim that a missing `levels` field
makes rubric construction fail with a `MalformedRubricError` (a class
which moreover exists nowhere in the repository). -/
theorem from_json_missing_levels_accepted :
    from_jsonData (.jobj [("criteria", .jarr [.jobj [("name", .jstr "x")]])])
      = .ok ⟨[⟨"x", "", []⟩]⟩ := by
  unfold from_jsonData criterionFromData mapExcept
  simp [lookupField, mapExcept]
  rfl

/-- C4 (amended): constructing a rubric from a structured payload fails
(with a key-lookup error, not a `MalformedRubricError`, which the code does
not define) whenever a criterion entry lacks `name`; a missing `levels`
field does not fail — it defaults to the empty list of levels, just as an
empty `levels` list is allowed — and a missing `description` defaults to
empty text. -/
theorem from_json_field_requirements (fs : List (String × JVal)) :
    (lookupField fs "name" = none →
      ∃ e, criterionFromData (.jobj fs) = .error e)
  ∧ (∀ nm, lookupField fs "name" = some (.jstr nm) →
      lookupField fs "levels" = none → lookupField fs "description" = none →
      criterionFromData (.jobj fs) = .ok ⟨nm, "", []⟩) := by
  constructor
  · intro hname
    simp only [criterionFromData]
    cases hl : lookupField fs "levels" with
    | none =>
      refine ⟨"KeyError: name", ?_⟩
      rw [hname]
      rfl
    | some v =>
      cases v with
      | jarr xs =>
        cases hm : mapExcept levelFromData xs with
        | error e =>
          refine ⟨e, ?_⟩
          show (mapExcept levelFromData xs).bind _ = Except.error e
          rw [hm]
          rfl
        | ok ys =>
          refine ⟨"KeyError: name", ?_⟩
          show (mapExcept levelFromData xs).bind _ = Except.error "KeyError: name"
          rw [hm, hname]
          rfl
      | jstr s => exact ⟨"TypeError: levels is not iterable", rfl⟩
      | jint n => exact ⟨"TypeError: levels is not iterable", rfl⟩
      | jobj gs => exact ⟨"TypeError: levels is not iterable", rfl⟩
  · intro nm hname hlev hdesc
    simp only [criterionFromData]
    rw [hlev, hname, hdesc]
    rfl

/-- Witness for C4 (amended): an entry with only `levels` fails on the
missing `name`; an entry with only `name` succeeds with default
description and levels. -/
theorem from_json_field_requirements_witness :
    (∃ e, criterionFromData (.jobj [("levels", .jarr [])]) = .error e)
  ∧ criterionFromData (.jobj [("name", .jstr "x")]) = .ok ⟨"x", "", []⟩ :=
  ⟨(from_json_field_requirements [("levels", JVal.jarr [])]).1 (by simp [lookupField]),
   (from_json_field_requirements [("name", JVal.jstr "x")]).2 "x"
     (by simp [lookupField]) (by simp [lookupField]) (by simp [lookupField])⟩

/-! ### Claim C6: batch order restoration -/

theorem findById_first (l : List (String × String)) (p : String × String)
    (hnd : (l.map Prod.fst).Nodup) (hp : p ∈ l) : findById p.1 l = some p := by
  induction l with
  | nil => cases hp
  | cons y ys ih =>
    rw [List.map_cons, List.nodup_cons] at hnd
    rcases List.mem_cons.mp hp with rfl | hmem
    · simp [findById]
    · have hneq : y.1 ≠ p.1 := by
        intro he
        exact hnd.1 (he ▸ List.mem_map_of_mem Prod.fst hmem)
      simp only [findById]
      rw [if_neg (by simp [hneq])]
      exact ih hnd.2 hmem

theorem listIndex_mem (l : List (String × String)) (p : String × String)
    (hp : p ∈ l) : ∃ n, pyListIndex l p = some n := by
  induction l with
  | nil => cases hp
  | cons y ys ih =>
    by_cases he : (y == p) = true
    · exact ⟨0, by simp [pyListIndex, he]⟩
    · rcases List.mem_cons.mp hp with rfl | hmem
      · simp at he
      · obtain ⟨n, hn⟩ := ih hmem
        exact ⟨n + 1, by simp [pyListIndex, he, hn]⟩

theorem listIndex_get (l : List (String × String)) (hnd : (l.map Prod.fst).Nodup)
    (i : Nat) (hi : i < l.length) : pyListIndex l (l[i]) = some i := by
  induction l generalizing i with
  | nil => exact absurd hi (Nat.not_lt_zero i)
  | cons y ys ih =>
    rw [List.map_cons, List.nodup_cons] at hnd
    cases i with
    | zero => simp [pyListIndex]
    | succ j =>
      have hj : j < ys.length := Nat.lt_of_succ_lt_succ hi
      have hget : (y :: ys)[j + 1] = ys[j] := rfl
      have hyne : (y == ys[j]) = false := by
        apply beq_eq_false_iff_ne.mpr
        intro he
        exact hnd.1 (he ▸ List.mem_map_of_mem Prod.fst (List.getElem_mem hj))
      rw [hget]
      simp [pyListIndex, hyne, ih hnd.2 j hj]

theorem sortKey_at (l : List (String × String)) (hnd : (l.map Prod.fst).Nodup)
    (i : Nat) (hi : i < l.length) (r : EvaluationResult)
    (hr : r.document_id = some ((l[i]).1)) :
    sortKeyAsync l r = some i := by
  unfold sortKeyAsync
  rw [hr]
  show (findById ((l[i]).1) l).bind (pyListIndex l) = some i
  rw [findById_first l (l[i]) hnd (List.getElem_mem hi)]
  show pyListIndex l (l[i]) = some i
  exact listIndex_get l hnd i hi

theorem keyOrDefault_at (l : List (String × String)) (hnd : (l.map Prod.fst).Nodup)
    (i : Nat) (hi : i < l.length) (r : EvaluationResult)
    (hr : r.document_id = some ((l[i]).1)) :
    keyOrDefault l r = i := by
  unfold keyOrDefault
  rw [sortKey_at l hnd i hi r hr]
  rfl

theorem canonical_pairwise_lt (l : List (String × String))
    (mkRes : String × String → EvaluationResult)
    (hid : ∀ p ∈ l, (mkRes p).document_id = some p.1)
    (hnd : (l.map Prod.fst).Nodup) :
    List.Pairwise (fun a b => keyOrDefault l a < keyOrDefault l b) (l.map mkRes) := by
  rw [List.pairwise_iff_getElem]
  intro i j hi hj hij
  simp only [List.getElem_map]
  rw [List.length_map] at hi hj
  rw [keyOrDefault_at l hnd i hi _ (hid _ (List.getElem_mem hi)),
    keyOrDefault_at l hnd j hj _ (hid _ (List.getElem_mem hj))]
  exact hij

/-- C6 (amended): for every batch whose normalized `(id, content)` pairs
carry pairwise distinct ids — always the case for a bare document list
(synthesized ids `"doc_0", "doc_1", ...`) and for a mapping of id to
content — the concurrent batch path returns exactly one result per input
document with the `document_id` order equal to the original input order,
regardless of the completion order (modelled as an arbitrary permutation
`completed` of the per-document results).  With duplicate ids in the
pairs form the reordering can break the input order (see the
counterexample). -/
theorem batch_order_restored (docItems : List (String × String))
    (mkRes : String × String → EvaluationResult)
    (hid : ∀ p ∈ docItems, (mkRes p).document_id = some p.1)
    (hnodup : (docItems.map Prod.fst).Nodup)
    (completed : List EvaluationResult)
    (hperm : completed.Perm (docItems.map mkRes)) :
    reorderResults docItems completed = .ok (docItems.map mkRes)
  ∧ (docItems.map mkRes).length = docItems.length
  ∧ (docItems.map mkRes).map (fun r => r.document_id)
      = docItems.map (fun p => some p.1) := by
  haveI : IsTotal EvaluationResult
      (fun a b => keyOrDefault docItems a ≤ keyOrDefault docItems b) :=
    ⟨fun a b => Nat.le_total _ _⟩
  haveI : IsTrans EvaluationResult
      (fun a b => keyOrDefault docItems a ≤ keyOrDefault docItems b) :=
    ⟨fun a b c hab hbc => Nat.le_trans hab hbc⟩
  haveI : IsAntisymm EvaluationResult
      (fun a b => keyOrDefault docItems a < keyOrDefault docItems b) :=
    ⟨fun a b h1 h2 => absurd (Nat.lt_trans h1 h2) (Nat.lt_irrefl _)⟩
  have hall : completed.all (fun r => (sortKeyAsync docItems r).isSome) = true := by
    rw [List.all_eq_true]
    intro r hrc
    have hrcan : r ∈ docItems.map mkRes := hperm.mem_iff.mp hrc
    obtain ⟨p, hp, rfl⟩ := List.mem_map.mp hrcan
    unfold sortKeyAsync
    rw [hid p hp]
    show ((findById p.1 docItems).bind (pyListIndex docItems)).isSome = true
    rw [findById_first docItems p hnodup hp]
    obtain ⟨n, hn⟩ := listIndex_mem docItems p hp
    show (pyListIndex docItems p).isSome = true
    rw [hn]
    rfl
  have hcanlt := canonical_pairwise_lt docItems mkRes hid hnodup
  have hsorted_le : List.Pairwise
      (fun a b => keyOrDefault docItems a ≤ keyOrDefault docItems b)
      (List.insertionSort
        (fun a b => keyOrDefault docItems a ≤ keyOrDefault docItems b) completed) :=
    List.sorted_insertionSort _ completed
  have hperm2 : (List.insertionSort
      (fun a b => keyOrDefault docItems a ≤ keyOrDefault docItems b) completed).Perm
      (docItems.map mkRes) :=
    (List.perm_insertionSort _ completed).trans hperm
  have hcanNodupKeys : ((docItems.map mkRes).map (keyOrDefault docItems)).Nodup := by
    show List.Pairwise _ _
    exact List.pairwise_map.mpr (hcanlt.imp (fun h => Nat.ne_of_lt h))
  have hsortNodupKeys : ((List.insertionSort
      (fun a b => keyOrDefault docItems a ≤ keyOrDefault docItems b) completed).map
        (keyOrDefault docItems)).Nodup :=
    ((hperm2.map (keyOrDefault docItems)).nodup_iff).mpr hcanNodupKeys
  have hsortNe : List.Pairwise
      (fun a b => keyOrDefault docItems a ≠ keyOrDefault docItems b)
      (List.insertionSort
        (fun a b => keyOrDefault docItems a ≤ keyOrDefault docItems b) completed) :=
    List.pairwise_map.mp hsortNodupKeys
  have hsorted_lt : List.Pairwise
      (fun a b => keyOrDefault docItems a < keyOrDefault docItems b)
      (List.insertionSort
        (fun a b => keyOrDefault docItems a ≤ keyOrDefault docItems b) completed) :=
    (hsorted_le.and hsortNe).imp (fun h => Nat.lt_of_le_of_ne h.1 h.2)
  have hsort_eq : List.insertionSort
      (fun a b => keyOrDefault docItems a ≤ keyOrDefault docItems b) completed
      = docItems.map mkRes :=
    List.eq_of_perm_of_sorted hperm2 hsorted_lt hcanlt
  refine ⟨?_, List.length_map _ _, ?_⟩
  · unfold reorderResults
    rw [hall]
    simp only [if_true]
    rw [hsort_eq]
  · rw [List.map_map]
    exact List.map_congr_left (fun p hp => hid p hp)

/-- A concrete mock-like result constructor for the C6 witness. -/
def c6Res (p : String × String) : EvaluationResult :=
  { document_id := some p.1, timestamp := 0, scores := [],
    overall_score := 0, model_used := some "m" }

/-- Witness for C6 (amended): two distinct-id documents completing in
reversed order are restored to input order. -/
theorem batch_order_restored_witness :
    reorderResults [("A", "x"), ("B", "y")] [c6Res ("B", "y"), c6Res ("A", "x")]
      = .ok [c6Res ("A", "x"), c6Res ("B", "y")] :=
  (batch_order_restored [("A", "x"), ("B", "y")] c6Res
    (by decide) (by decide) [c6Res ("B", "y"), c6Res ("A", "x")] (by decide)).1

/-- The provider used by the C6 counterexample. -/
def ceProv : LLMProviderM := ⟨fun _ => "", fun _ => "", "m"⟩

/-- Duplicate-id batch input for the C6 counterexample. -/
def ceItems : List (String × String) := [("a", "x"), ("b", "y"), ("a", "z")]

/-- The per-document result of the concurrent path (empty rubric) in the
C6 counterexample. -/
def ceRes (p : String × String) : EvaluationResult :=
  evaluate_document_async [] ceProv p.2 (some p.1) 0

/-- C6 counterexample: for the duplicate-id pairs input
`[("a","x"), ("b","y"), ("a","z")]` and the completion order
`[result("a","z"), result("b","y"), result("a","x")]` (a permutation of the
per-document results), the order-restoring sort of the concurrent batch
path returns the `document_id` sequence `[a, a, b]`, not the input order
`[a, b, a]`: the sort key maps every result to the index of the *first*
item with a matching id. -/
theorem batch_duplicate_ids_reordered :
    [ceRes ("a", "z"), ceRes ("b", "y"), ceRes ("a", "x")].Perm (ceItems.map ceRes)
  ∧ (reorderResults ceItems
        [ceRes ("a", "z"), ceRes ("b", "y"), ceRes ("a", "x")]).map
        (fun rs => rs.map (fun r => r.document_id))
      = .ok [some "a", some "a", some "b"]
  ∧ ceItems.map (fun p => (some p.1 : Option String)) = [some "a", some "b", some "a"]
  ∧ ([some "a", some "a", some "b"] : List (Option String))
      ≠ [some "a", some "b", some "a"] := by
  refine ⟨by decide, ?_, by decide, by decide⟩
  rfl
